import Mathlib

/-!
Shallow embedding of the HMA action-evaluation engine
(`hmalib/lambdas/actions/action_evaluator.py`) and the match-query handlers
(`hmalib/lambdas/api/matches.py`), with theorems settling the spec claims.
-/

namespace HMA

/-- A namespaced tag, `Label(key, value)` from `hmalib.common.actioner_models`
(constructed in the source as `Label("Collaboration", "12345")`). -/
structure Label where
  key : String
  value : String
deriving DecidableEq

/-- Modelled from the spec: `ActionLabel` is a `Label` variant identifying an
action; its equality is based on its value (`actioner_models.py` is not under
src/). Constructed in the source as `ActionLabel("EnqueueForReview")`. -/
structure ActionLabel where
  value : String
deriving DecidableEq

/-- Modelled from the spec: a `ThreatExchangeReactionLabel` value identifying a
feedback signal reported upstream (`actioner_models.py` is not under src/).
Constructed in the source as `ThreatExchangeReactionLabel("SAW_THIS_TOO")`. -/
structure ReactionLabel where
  value : String
deriving DecidableEq

/-- Modelled from the spec: a `MatchMessage` carries a content identifier, a
signal hash value and the labels describing the match context (`hmalib.models`
is not under src/; the source constructs `MatchMessage("key", "hash", [])`). -/
structure MatchMessage where
  content_key : String
  content_hash : String
  labels : List Label
deriving DecidableEq

/-- An `ActionRule`, constructed in the source as
`ActionRule(action_label, must_have_labels, must_not_have_labels)`. -/
structure ActionRule where
  action_label : ActionLabel
  must_have_labels : List Label
  must_not_have_labels : List Label
deriving DecidableEq

/-- An `Action`, constructed in the source as
`Action(action_label, priority, superseded_by_action_labels)`. -/
structure Action where
  action_label : ActionLabel
  priority : Int
  superseded_by_action_labels : List ActionLabel
deriving DecidableEq

/-- Modelled from the spec: an `ActionMessage` is derived from a `MatchMessage`
and one `ActionLabel` (`ActionMessage.from_match_message_and_label`;
`actioner_models.py` is not under src/). -/
structure ActionMessage where
  match_message : MatchMessage
  action_label : ActionLabel
deriving DecidableEq

/-- Modelled from the spec: a `ReactionMessage` is derived from a
`MatchMessage` and one reaction label
(`ReactionMessage.from_match_message_and_label`; `actioner_models.py` is not
under src/). -/
structure ReactionMessage where
  match_message : MatchMessage
  reaction_label : ReactionLabel
deriving DecidableEq

/-- Embeds `action_rule_applies_to_match_message` (action_evaluator.py lines
124-132): the body is literally `return True`; the docstring describes the
must-have / must-not-have check but the implementation ignores both. -/
def action_rule_applies_to_match_message
    (_action_rule : ActionRule) (_match_message : MatchMessage) : Bool :=
  true

/-- The behaviour the docstring of `action_rule_applies_to_match_message`
describes (and spec section 4.1): the rule applies iff every must-have label is
present in the match message and no must-not-have label is present. Stated
separately from the embedding of the code so the two can be compared. -/
def action_rule_applies_doc
    (action_rule : ActionRule) (match_message : MatchMessage) : Bool :=
  action_rule.must_have_labels.all (fun l => match_message.labels.contains l) &&
  action_rule.must_not_have_labels.all (fun l => !(match_message.labels.contains l))

/-- Embeds `get_action_rules` (action_evaluator.py lines 109-121): a TODO stub
returning one hardcoded rule. -/
def get_action_rules : List ActionRule :=
  [ActionRule.mk (ActionLabel.mk "EnqueueForReview")
    [Label.mk "Collaboration" "12345"] []]

/-- Embeds `get_actions` (action_evaluator.py lines 135-148): a TODO stub
returning one hardcoded action. -/
def get_actions : List Action :=
  [Action.mk (ActionLabel.mk "ENQUEUE_FOR_REVIEW") 1
    [ActionLabel.mk "A_MORE_IMPORTANT_ACTION"]]

/-- Embeds `remove_superseded_actions` (action_evaluator.py lines 151-159): a
TODO stub that returns its input unchanged. -/
def remove_superseded_actions (action_labels : List ActionLabel) :
    List ActionLabel :=
  action_labels

/-- The accumulation loop of `get_action_labels` (action_evaluator.py lines
99-105) before `remove_superseded_actions` is applied, parameterised by the
rule list that the source fetches via `get_action_rules()`: iterate the rules
in order, appending a rule's action label when the rule applies and the label
is not already in the accumulator. -/
def get_action_labels_loop (action_rules : List ActionRule)
    (match_message : MatchMessage) : List ActionLabel :=
  action_rules.foldl
    (fun action_labels action_rule =>
      if action_rule_applies_to_match_message action_rule match_message &&
          !(action_labels.contains action_rule.action_label)
      then action_labels ++ [action_rule.action_label]
      else action_labels)
    []

/-- Embeds `get_action_labels` (action_evaluator.py lines 93-106),
parameterised by the rule list fetched from the repository: the accumulation
loop followed by `remove_superseded_actions`. -/
def get_action_labels (action_rules : List ActionRule)
    (match_message : MatchMessage) : List ActionLabel :=
  remove_superseded_actions (get_action_labels_loop action_rules match_message)

/-- Embeds `threat_exchange_reacting_is_enabled` (action_evaluator.py lines
162-172): a TODO stub that returns True pending a config lookup. -/
def threat_exchange_reacting_is_enabled (_match_message : MatchMessage) :
    Bool :=
  true

/-- Embeds `get_threat_exchange_reaction_labels` (action_evaluator.py lines
175-184): a TODO stub returning the single hardcoded reaction label. -/
def get_threat_exchange_reaction_labels (_match_message : MatchMessage)
    (_action_labels : List ActionLabel) : List ReactionLabel :=
  [ReactionLabel.mk "SAW_THIS_TOO"]

/-- The messages a single record's pipeline run publishes: the bodies sent to
the actions queue and to the reactions queue. -/
structure PublishedMessages where
  action_messages : List ActionMessage
  reaction_messages : List ReactionMessage
deriving DecidableEq

/-- Embeds the per-record body of `lambda_handler` (action_evaluator.py lines
62-88), with queue publishing modelled as list accumulation. The reaction
gate is a parameter: in the source `threat_exchange_reacting_is_enabled` is a
TODO stub (`return True`) whose docstring says it looks the flag up from an
external config, so the gate is modelled from the spec as an arbitrary
predicate over the match message. -/
def process_match_message (gate : MatchMessage → Bool)
    (match_message : MatchMessage) : PublishedMessages :=
  let action_labels := get_action_labels get_action_rules match_message
  let action_messages :=
    action_labels.map (fun action_label =>
      ActionMessage.mk match_message action_label)
  let reaction_messages :=
    if gate match_message then
      let reaction_labels :=
        get_threat_exchange_reaction_labels match_message action_labels
      if reaction_labels ≠ [] then
        reaction_labels.map (fun reaction_label =>
          ReactionMessage.mk match_message reaction_label)
      else []
    else []
  PublishedMessages.mk action_messages reaction_messages

/-- Modelled from the spec: an inbound SQS envelope either deserialises into a
MatchMessage or is malformed (spec section 7, MalformedInput); the parsing code
(`json.loads` plus `MatchMessage.from_aws_message`, `hmalib/models.py`) is not
under src/. -/
inductive Envelope where
  | wellformed (match_message : MatchMessage)
  | malformed
deriving DecidableEq

/-- Modelled from the spec: deserialising an envelope yields its MatchMessage
or fails (raises) on a malformed body. -/
def parse_match_message : Envelope → Option MatchMessage
  | Envelope.wellformed match_message => some match_message
  | Envelope.malformed => none

/-- Embeds the record loop of `lambda_handler` (action_evaluator.py lines
55-88): records are processed in order; a record whose body fails to parse
raises, which aborts the loop — messages already sent stay sent (first
component), later records are never processed, and the error propagates
(second component). There is no try/except around the per-record work. -/
def lambda_handler_loop (gate : MatchMessage → Bool) :
    List Envelope → List PublishedMessages × Except String Unit
  | [] => ([], Except.ok ())
  | record :: rest =>
    match parse_match_message record with
    | none => ([], Except.error "MalformedInput")
    | some match_message =>
      let published := process_match_message gate match_message
      let (rest_published, rest_result) := lambda_handler_loop gate rest
      (published :: rest_published, rest_result)

/-- Embeds the return value of `lambda_handler` (action_evaluator.py line 90):
the constant dict `{"evaluation_completed": "true"}`. -/
def evaluation_completed_summary : List (String × String) :=
  [("evaluation_completed", "true")]

/-- Embeds `lambda_handler` (action_evaluator.py lines 45-90) over a batch of
records: run the loop; when it completes, return the constant summary,
otherwise the exception propagates. The first component records every message
published before the handler returned or raised. -/
def lambda_handler (gate : MatchMessage → Bool) (records : List Envelope) :
    List PublishedMessages × Except String (List (String × String)) :=
  let (published, result) := lambda_handler_loop gate records
  (published, result.map (fun _ => evaluation_completed_summary))

/-- First-seen-order deduplication of a label sequence: keep each label at the
position of its first occurrence. -/
def dedup_first_seen (labels : List ActionLabel) : List ActionLabel :=
  labels.foldl
    (fun acc l => if acc.contains l then acc else acc ++ [l]) []

/-! ### Embedding of `hmalib/lambdas/api/matches.py` -/

namespace ThreatDescriptor

/-- Modelled from the spec: the true-positive reviewer-opinion tag constant of
the external python-threatexchange `ThreatDescriptor` (descriptor.py is not
under src/). -/
def TRUE_POSITIVE : String := "true_positive"

/-- Modelled from the spec: the false-positive reviewer-opinion tag constant
of the external python-threatexchange `ThreatDescriptor`. -/
def FALSE_POSITIVE : String := "false_positive"

/-- Modelled from the spec: the disputed reviewer-opinion tag constant of the
external python-threatexchange `ThreatDescriptor`. -/
def DISPUTED : String := "disputed"

end ThreatDescriptor

/-- Embeds the `OpinionString` enum (matches.py lines 123-127). -/
inductive OpinionString where
  | TP
  | FP
  | DISPUTED
  | UNKNOWN
deriving DecidableEq

/-- The `.value` of each `OpinionString` enum member. -/
def OpinionString.value : OpinionString → String
  | OpinionString.TP => "True Positive"
  | OpinionString.FP => "False Positive"
  | OpinionString.DISPUTED => "Unknown (Disputed)"
  | OpinionString.UNKNOWN => "Unknown"

/-- A `signal_id`, of Python type `t.Union[str, int]`. -/
inductive SignalId where
  | str (s : String)
  | int (n : Int)
deriving DecidableEq

/-- Python truthiness: `not signal_id` holds exactly for the empty string and
for the integer 0. -/
def SignalId.py_falsy : SignalId → Bool
  | SignalId.str s => s = ""
  | SignalId.int n => n = 0

/-- Modelled from the spec: a PDQ match record row returned by the table store
(`PDQMatchRecord`, `hmalib/models.py` is not under src/), restricted to the
fields matches.py reads; `updated_at.isoformat()` is kept as a string. -/
structure PDQMatchRecord where
  content_id : String
  content_hash : String
  signal_id : SignalId
  signal_hash : String
  signal_source : String
  updated_at_isoformat : String
deriving DecidableEq

/-- Modelled from the spec: the `PDQMatchRecord.SIGNAL_TYPE` class constant
(models.py is not under src/), the PDQ signal-type name. -/
def PDQ_SIGNAL_TYPE : String := "pdq"

/-- Modelled from the spec: a PDQ signal metadata row returned by the table
store (`PDQSignalMetadata`, `hmalib/models.py` is not under src/), restricted
to the fields matches.py reads. -/
structure PDQSignalMetadata where
  ds_id : String
  tags : List String
deriving DecidableEq

/-- Modelled from the spec: the persisted match-record table store, an opaque
provider of the two queries matches.py issues
(`PDQMatchRecord.get_from_content_id` and
`PDQSignalMetadata.get_from_signal`; `hmalib/models.py` is not under src/). -/
structure Table where
  pdq_match_records_by_content_id : String → List PDQMatchRecord
  pdq_signal_metadata_by_signal : SignalId → String → List PDQSignalMetadata

/-- Embeds the `MatchDetailMetadata` dataclass (matches.py lines 36-43). -/
structure MatchDetailMetadata where
  dataset : String
  tags : List String
  opinion : String
deriving DecidableEq

/-- Embeds the `MatchDetail` dataclass (matches.py lines 46-60). -/
structure MatchDetail where
  content_id : String
  content_hash : String
  signal_id : SignalId
  signal_hash : String
  signal_source : String
  signal_type : String
  updated_at : String
  metadata : List MatchDetailMetadata
deriving DecidableEq

/-- Embeds `get_opinion_from_tags` (matches.py lines 130-138): first matching
opinion tag wins, in the order true positive, false positive, disputed. -/
def get_opinion_from_tags (tags : List String) : OpinionString :=
  if tags.contains ThreatDescriptor.TRUE_POSITIVE then OpinionString.TP
  else if tags.contains ThreatDescriptor.FALSE_POSITIVE then OpinionString.FP
  else if tags.contains ThreatDescriptor.DISPUTED then OpinionString.DISPUTED
  else OpinionString.UNKNOWN

/-- Embeds `get_signal_details` (matches.py lines 96-120): empty (falsy)
`signal_id` or `signal_source` short-circuits to `[]`; otherwise each metadata
row maps to a `MatchDetailMetadata` whose tags exclude the three opinion tags
and whose opinion is derived from the unfiltered tags. -/
def get_signal_details (table : Table) (signal_id : SignalId)
    (signal_source : String) : List MatchDetailMetadata :=
  if signal_id.py_falsy || signal_source = "" then []
  else
    (table.pdq_signal_metadata_by_signal signal_id signal_source).map
      (fun metadata =>
        MatchDetailMetadata.mk metadata.ds_id
          (metadata.tags.filter (fun tag =>
            !([ThreatDescriptor.TRUE_POSITIVE, ThreatDescriptor.FALSE_POSITIVE,
               ThreatDescriptor.DISPUTED].contains tag)))
          (get_opinion_from_tags metadata.tags).value)

/-- Embeds `get_match_details` (matches.py lines 71-93): empty `content_id`
short-circuits to `[]`; otherwise the store is queried with
`image_folder_key ++ content_id` and each record maps to a `MatchDetail`,
with the folder-key prefix sliced off the record's content id. -/
def get_match_details (table : Table) (content_id : String)
    (image_folder_key : String) : List MatchDetail :=
  if content_id = "" then []
  else
    (table.pdq_match_records_by_content_id (image_folder_key ++ content_id)).map
      (fun record =>
        MatchDetail.mk (record.content_id.drop image_folder_key.length)
          record.content_hash record.signal_id record.signal_hash
          record.signal_source PDQ_SIGNAL_TYPE record.updated_at_isoformat
          (get_signal_details table record.signal_id record.signal_source))

/-! ### Helper lemmas -/

/-- The `dedup_first_seen` fold keeps the accumulator duplicate-free. -/
lemma dedup_first_seen_go_nodup (labels : List ActionLabel) :
    ∀ acc : List ActionLabel, acc.Nodup →
      (labels.foldl
        (fun acc l => if acc.contains l then acc else acc ++ [l]) acc).Nodup := by
  induction labels with
  | nil => intro acc h; simpa using h
  | cons x xs ih =>
    intro acc h
    by_cases hx : x ∈ acc
    · simpa [hx] using ih acc h
    · have h2 : (acc ++ [x]).Nodup := by simp [List.nodup_append, h, hx]
      simpa [hx] using ih (acc ++ [x]) h2

/-- The accumulation loop of `get_action_labels` equals first-seen
deduplication of the action labels of the rules, applied to the accumulator. -/
lemma get_action_labels_loop_eq_dedup (action_rules : List ActionRule)
    (match_message : MatchMessage) :
    get_action_labels_loop action_rules match_message =
      dedup_first_seen (action_rules.map (fun r => r.action_label)) := by
  unfold get_action_labels_loop dedup_first_seen
  rw [List.foldl_map]
  congr 1
  funext acc r
  by_cases h : acc.contains r.action_label = true <;>
    simp [action_rule_applies_to_match_message, h]

/-- Concrete batch-loop inputs used by several witnesses: the MatchMessage of
spec section 8, end-to-end scenario 1. -/
def scenario_match_message : MatchMessage :=
  MatchMessage.mk "key1" "h1" [Label.mk "Collaboration" "12345"]

/-- A concrete table store whose queries return nonempty results, used to
exercise short-circuit and filtering paths on concrete inputs. -/
def sample_table : Table :=
  Table.mk
    (fun _ => [PDQMatchRecord.mk "images/c1" "hash1" (SignalId.int 7) "shash1"
      "te" "2021-01-01T00:00:00"])
    (fun _ _ => [PDQSignalMetadata.mk "12345"
      [ThreatDescriptor.TRUE_POSITIVE, "tag_a"]])

/-! ### Claim theorems -/

/-- C1: for every rule list and every MatchMessage, the ActionLabel sequence
produced by the accumulation loop of `get_action_labels` (before
`remove_superseded_actions`) contains no duplicate labels, and it is exactly
the first-seen-order deduplication of the action labels of the rules that
applied, in rule order. -/
theorem claim_c1_rule_evaluation_nodup_first_seen
    (action_rules : List ActionRule) (match_message : MatchMessage) :
    (get_action_labels_loop action_rules match_message).Nodup ∧
    get_action_labels_loop action_rules match_message =
      dedup_first_seen
        ((action_rules.filter
          (fun r => action_rule_applies_to_match_message r match_message)).map
          (fun r => r.action_label)) := by
  constructor
  · rw [get_action_labels_loop_eq_dedup]
    exact dedup_first_seen_go_nodup _ [] List.nodup_nil
  · rw [get_action_labels_loop_eq_dedup]
    congr 2
    simp [action_rule_applies_to_match_message]

/-- C2: evaluating the code at the failing input. The rule's
MustNotHaveLabels contains a label that the match carries, so by the claim
(and the function's own docstring) the rule must not apply; the implementation
`return True` reports that it applies, diverging from the documented
behaviour `action_rule_applies_doc`. -/
theorem claim_c2_stub_ignores_must_not_have_labels :
    action_rule_applies_to_match_message
        (ActionRule.mk (ActionLabel.mk "ACTION_A") []
          [Label.mk "BannedSource" "99"])
        (MatchMessage.mk "key" "hash" [Label.mk "BannedSource" "99"]) = true ∧
    action_rule_applies_doc
        (ActionRule.mk (ActionLabel.mk "ACTION_A") []
          [Label.mk "BannedSource" "99"])
        (MatchMessage.mk "key" "hash" [Label.mk "BannedSource" "99"]) = false := by
  exact ⟨rfl, by decide⟩

/-- C3: evaluating the code at the failing input. `remove_superseded_actions`
is an identity stub, so on the chain A supersedes B, B supersedes C with raw
labels [A, B, C] it returns [A, B, C], not the [A] the claim requires. -/
theorem claim_c3_supersession_stub_is_identity :
    remove_superseded_actions
        [ActionLabel.mk "A", ActionLabel.mk "B", ActionLabel.mk "C"] =
      [ActionLabel.mk "A", ActionLabel.mk "B", ActionLabel.mk "C"] ∧
    remove_superseded_actions
        [ActionLabel.mk "A", ActionLabel.mk "B", ActionLabel.mk "C"] ≠
      [ActionLabel.mk "A"] := by
  exact ⟨rfl, by decide⟩

/-- C4: for every input sequence, the output of `remove_superseded_actions`
is a subsequence of the input (nothing is added, relative order preserved),
and every removed label has a superseding label — per the `get_actions`
definitions — present in the resolved output. The identity implementation
removes nothing, so the second conjunct holds vacuously. -/
theorem claim_c4_resolver_output_subsequence_justified
    (action_labels : List ActionLabel) :
    (remove_superseded_actions action_labels).Sublist action_labels ∧
    ∀ l ∈ action_labels, l ∉ remove_superseded_actions action_labels →
      ∃ superseding ∈ remove_superseded_actions action_labels,
        ∃ a ∈ get_actions, a.action_label = superseding ∧
          l ∈ a.superseded_by_action_labels := by
  refine ⟨List.Sublist.refl _, ?_⟩
  intro l hl hnl
  exact absurd hl hnl

/-- C5: whenever the reaction gate reports false for a record's MatchMessage,
the per-record pipeline publishes no ReactionMessage, even though the reaction
resolver would return a nonempty label sequence for that record. -/
theorem claim_c5_gate_false_no_reactions (gate : MatchMessage → Bool)
    (match_message : MatchMessage) (h : gate match_message = false) :
    (process_match_message gate match_message).reaction_messages = [] ∧
    get_threat_exchange_reaction_labels match_message
      (get_action_labels get_action_rules match_message) ≠ [] := by
  constructor
  · simp [process_match_message, h]
  · simp [get_threat_exchange_reaction_labels]

/-- Witness for C5 at a concrete gate and MatchMessage. -/
theorem claim_c5_witness :
    (fun _ : MatchMessage => false) scenario_match_message = false ∧
    (process_match_message (fun _ => false)
      scenario_match_message).reaction_messages = [] ∧
    get_threat_exchange_reaction_labels scenario_match_message
      (get_action_labels get_action_rules scenario_match_message) ≠ [] := by
  refine ⟨rfl, ?_, ?_⟩
  · exact (claim_c5_gate_false_no_reactions (fun _ => false)
      scenario_match_message rfl).1
  · exact (claim_c5_gate_false_no_reactions (fun _ => false)
      scenario_match_message rfl).2

/-- C6: rule evaluation plus supersession resolution is deterministic over an
unchanged snapshot (the same rule list and MatchMessage yield the same ordered
sequence), and applying `remove_superseded_actions` to an already-resolved
sequence — in particular to the output of `get_action_labels` — leaves it
unchanged. -/
theorem claim_c6_deterministic_idempotent (action_rules : List ActionRule)
    (match_message : MatchMessage) (action_labels : List ActionLabel) :
    get_action_labels action_rules match_message =
      get_action_labels action_rules match_message ∧
    remove_superseded_actions (remove_superseded_actions action_labels) =
      remove_superseded_actions action_labels ∧
    remove_superseded_actions (get_action_labels action_rules match_message) =
      get_action_labels action_rules match_message :=
  ⟨rfl, rfl, rfl⟩

/-- Counterexample to C7: in the batch [malformed, wellformed], the parse
failure of the first record aborts the handler — no messages are published at
all and the error propagates — although processing the wellformed sibling on
its own would publish a nonempty set of messages. The failure is not confined
to the malformed record. -/
theorem claim_c7_counterexample :
    lambda_handler threat_exchange_reacting_is_enabled
        [Envelope.malformed, Envelope.wellformed scenario_match_message] =
      ([], Except.error "MalformedInput") ∧
    process_match_message threat_exchange_reacting_is_enabled
        scenario_match_message ≠ PublishedMessages.mk [] [] := by
  exact ⟨rfl, by decide⟩

/-- C7 as amended: a record whose envelope fails to parse aborts the batch
loop. Records before the malformed one are processed normally; the malformed
record's error propagates and the records after it are never processed. -/
theorem claim_c7_amended_malformed_record_aborts_batch
    (gate : MatchMessage → Bool) (parsed_messages : List MatchMessage)
    (later_records : List Envelope) :
    lambda_handler_loop gate
        (parsed_messages.map Envelope.wellformed ++
          Envelope.malformed :: later_records) =
      (parsed_messages.map (process_match_message gate),
        Except.error "MalformedInput") := by
  induction parsed_messages with
  | nil => rfl
  | cons m ms ih => simp [lambda_handler_loop, parse_match_message, ih]

/-- The batch loop either completes or aborts with the parse error. -/
lemma lambda_handler_loop_result (gate : MatchMessage → Bool)
    (records : List Envelope) :
    (lambda_handler_loop gate records).2 = Except.ok () ∨
    (lambda_handler_loop gate records).2 = Except.error "MalformedInput" := by
  induction records with
  | nil => left; rfl
  | cons r rest ih =>
    cases r with
    | malformed => right; rfl
    | wellformed m => simpa [lambda_handler_loop, parse_match_message] using ih

/-- Counterexample to C8: the orchestrator's value does not distinguish the
three batch outcomes. A partially succeeded batch (first record fully
processed and dispatched, second malformed) and a fully failed batch (only a
malformed record) produce the same result, and every completing batch returns
the same constant summary regardless of its records. -/
theorem claim_c8_counterexample :
    (lambda_handler threat_exchange_reacting_is_enabled
        [Envelope.wellformed scenario_match_message, Envelope.malformed]).2 =
      (lambda_handler threat_exchange_reacting_is_enabled
        [Envelope.malformed]).2 ∧
    (lambda_handler threat_exchange_reacting_is_enabled
        [Envelope.wellformed scenario_match_message, Envelope.malformed]).1 ≠
      [] ∧
    (lambda_handler threat_exchange_reacting_is_enabled
        ([] : List Envelope)).2 =
      (lambda_handler threat_exchange_reacting_is_enabled
        [Envelope.wellformed scenario_match_message]).2 := by
  exact ⟨rfl, by decide, rfl⟩

/-- C8 as amended: whenever the batch loop completes, `lambda_handler`
returns the single constant summary `{"evaluation_completed": "true"}`,
independent of the per-record outcomes; any record failure instead aborts the
batch with the propagated error, so no summary distinguishes partial from
full failure. -/
theorem claim_c8_amended_constant_summary (gate : MatchMessage → Bool)
    (records : List Envelope) :
    (lambda_handler gate records).2 =
      Except.ok evaluation_completed_summary ∨
    (lambda_handler gate records).2 = Except.error "MalformedInput" := by
  rcases lambda_handler_loop_result gate records with h | h
  · left
    simp [lambda_handler, h, Except.map]
  · right
    simp [lambda_handler, h, Except.map]

/-- C9: empty keys short-circuit to empty results for every table store:
`get_match_details` returns `[]` whenever `content_id` is empty, and
`get_signal_details` returns `[]` whenever `signal_id` or `signal_source` is
empty (falsy); quantifying over the table shows the store is never consulted. -/
theorem claim_c9_empty_keys_short_circuit (table : Table)
    (content_id image_folder_key signal_source : String) (signal_id : SignalId)
    (hcid : content_id = "")
    (hsig : signal_id.py_falsy = true ∨ signal_source = "") :
    get_match_details table content_id image_folder_key = [] ∧
    get_signal_details table signal_id signal_source = [] := by
  constructor
  · simp [get_match_details, hcid]
  · rcases hsig with h | h <;> simp [get_signal_details, h]

/-- Witness for C9 at a concrete table with nonempty query results. -/
theorem claim_c9_witness :
    ("" : String) = "" ∧ (SignalId.str "").py_falsy = true ∧
    get_match_details sample_table "" "images/" = [] ∧
    get_signal_details sample_table (SignalId.str "") "te" = [] := by
  have h := claim_c9_empty_keys_short_circuit sample_table "" "images/" "te"
    (SignalId.str "") rfl (Or.inl rfl)
  exact ⟨rfl, rfl, h.1, h.2⟩

/-- C10: `get_opinion_from_tags` resolves the opinion by fixed precedence
(true positive, then false positive, then disputed, then unknown), and the tag
list of every `MatchDetailMetadata` produced by `get_signal_details` contains
none of the three opinion tags. -/
theorem claim_c10_opinion_precedence_and_tag_filtering
    (tags : List String) (table : Table) (signal_id : SignalId)
    (signal_source : String) :
    (ThreatDescriptor.TRUE_POSITIVE ∈ tags →
      get_opinion_from_tags tags = OpinionString.TP) ∧
    (ThreatDescriptor.TRUE_POSITIVE ∉ tags →
      ThreatDescriptor.FALSE_POSITIVE ∈ tags →
      get_opinion_from_tags tags = OpinionString.FP) ∧
    (ThreatDescriptor.TRUE_POSITIVE ∉ tags →
      ThreatDescriptor.FALSE_POSITIVE ∉ tags →
      ThreatDescriptor.DISPUTED ∈ tags →
      get_opinion_from_tags tags = OpinionString.DISPUTED) ∧
    (ThreatDescriptor.TRUE_POSITIVE ∉ tags →
      ThreatDescriptor.FALSE_POSITIVE ∉ tags →
      ThreatDescriptor.DISPUTED ∉ tags →
      get_opinion_from_tags tags = OpinionString.UNKNOWN) ∧
    (∀ md ∈ get_signal_details table signal_id signal_source,
      ThreatDescriptor.TRUE_POSITIVE ∉ md.tags ∧
      ThreatDescriptor.FALSE_POSITIVE ∉ md.tags ∧
      ThreatDescriptor.DISPUTED ∉ md.tags) := by
  refine ⟨?_, ?_, ?_, ?_, ?_⟩
  · intro h
    simp [get_opinion_from_tags, h]
  · intro h1 h2
    simp [get_opinion_from_tags, h1, h2]
  · intro h1 h2 h3
    simp [get_opinion_from_tags, h1, h2, h3]
  · intro h1 h2 h3
    simp [get_opinion_from_tags, h1, h2, h3]
  · intro md hmd
    unfold get_signal_details at hmd
    by_cases hc : (signal_id.py_falsy || signal_source = "") = true
    · simp [hc] at hmd
    · rw [if_neg hc, List.mem_map] at hmd
      obtain ⟨metadata, _, rfl⟩ := hmd
      refine ⟨?_, ?_, ?_⟩ <;>
      · intro hmem
        have := (List.mem_filter.mp hmem).2
        simp at this

/-- Witness for C10 at concrete tag lists and the concrete table. -/
theorem claim_c10_witness :
    get_opinion_from_tags
        [ThreatDescriptor.TRUE_POSITIVE, ThreatDescriptor.DISPUTED] =
      OpinionString.TP ∧
    get_opinion_from_tags
        [ThreatDescriptor.FALSE_POSITIVE, ThreatDescriptor.DISPUTED] =
      OpinionString.FP ∧
    get_opinion_from_tags [ThreatDescriptor.DISPUTED] =
      OpinionString.DISPUTED ∧
    get_opinion_from_tags ["tag_a"] = OpinionString.UNKNOWN ∧
    (∀ md ∈ get_signal_details sample_table (SignalId.int 7) "te",
      ThreatDescriptor.TRUE_POSITIVE ∉ md.tags ∧
      ThreatDescriptor.FALSE_POSITIVE ∉ md.tags ∧
      ThreatDescriptor.DISPUTED ∉ md.tags) := by
  refine ⟨?_, ?_, ?_, ?_, ?_⟩
  · exact (claim_c10_opinion_precedence_and_tag_filtering
      [ThreatDescriptor.TRUE_POSITIVE, ThreatDescriptor.DISPUTED]
      sample_table (SignalId.int 7) "te").1 (by decide)
  · exact (claim_c10_opinion_precedence_and_tag_filtering
      [ThreatDescriptor.FALSE_POSITIVE, ThreatDescriptor.DISPUTED]
      sample_table (SignalId.int 7) "te").2.1 (by decide) (by decide)
  · exact (claim_c10_opinion_precedence_and_tag_filtering
      [ThreatDescriptor.DISPUTED]
      sample_table (SignalId.int 7) "te").2.2.1 (by decide) (by decide)
      (by decide)
  · exact (claim_c10_opinion_precedence_and_tag_filtering
      ["tag_a"]
      sample_table (SignalId.int 7) "te").2.2.2.1 (by decide) (by decide)
      (by decide)
  · exact (claim_c10_opinion_precedence_and_tag_filtering []
      sample_table (SignalId.int 7) "te").2.2.2.2

end HMA
